import Mathlib

/-!
Shallow embedding of the `3k_v.2.1.6` authentication service
(`src/server.js` and `src/api/auth/login.js`) and proofs of the
specification claims about it.

The relational `users` table is modelled as a list of rows; time
(`NOW()` / `Date.now()`) is an explicit `Nat` parameter; request bodies
are records of optional string fields (a missing JSON field is `none`,
JavaScript truthiness of a string is "present and non-empty"); JSON
response bodies are an explicit `Json` tree so that "the response
contains no `password_hash` key" is a statement about the body.
-/

namespace ThreeK

/-- JSON values, as shaped by the handlers' `res.json(...)` calls. -/
inductive Json where
  | null : Json
  | bool : Bool → Json
  | num : Int → Json
  | str : String → Json
  | arr : List Json → Json
  | obj : List (String × Json) → Json
deriving Repr

mutual

/-- Deep search for a key anywhere in a JSON value. -/
def Json.hasKeyDeep (k : String) : Json → Bool
  | .arr js => Json.hasKeyDeepList k js
  | .obj fs => Json.hasKeyDeepFields k fs
  | _ => false

/-- Deep search for a key in a list of JSON values. -/
def Json.hasKeyDeepList (k : String) : List Json → Bool
  | [] => false
  | j :: rest => Json.hasKeyDeep k j || Json.hasKeyDeepList k rest

/-- Deep search for a key in the field list of a JSON object. -/
def Json.hasKeyDeepFields (k : String) : List (String × Json) → Bool
  | [] => false
  | (k2, v) :: rest => k2 == k || Json.hasKeyDeep k v || Json.hasKeyDeepFields k rest

end

/-- Look up the value stored at a top-level key of a JSON object. -/
def Json.getKey (k : String) : Json → Option Json
  | .obj fs => (fs.find? (fun p => p.1 == k)).map (fun p => p.2)
  | _ => none

/-- A row of the `users` table (schema printed at `src/server.js:392-396`
and used by every query in the code). Nullable columns are `Option`. -/
structure UserRow where
  id : Nat
  user_id : String
  email : String
  name : String
  password_hash : Option String
  profile_picture : Option String
  wallet_address : Option String
  nft_tier : Option String
  created_at : Nat
  updated_at : Nat
deriving Repr, DecidableEq

/-- JavaScript truthiness of a string: non-empty. -/
def strTruthy (s : String) : Bool := !(s == "")

/-- JavaScript truthiness of a possibly-missing string field:
present and non-empty (`undefined`, `null` and `""` are all falsy). -/
def optTruthy : Option String → Bool
  | none => false
  | some s => strTruthy s

/-- Modelled from the spec: the Password Hashing Service's
`hash(plaintext) -> hashed` (bcrypt-family, fixed cost factor 10).
The bcrypt library itself is an external dependency, not in `src/`;
the model keeps the contract that a hash is a non-empty string
determined by the plaintext and recognised by `bcryptVerify`. -/
def bcryptHash (plaintext : String) : String :=
  "$2b$10$" ++ plaintext

/-- Modelled from the spec: the Password Hashing Service's
`verify(plaintext, hashed) -> bool`, which "must return false (not
throw) for a structurally invalid or absent stored hash". -/
def bcryptVerify (plaintext : String) (stored : Option String) : Bool :=
  match stored with
  | none => false
  | some h => h == bcryptHash plaintext

/-- Modelled from the spec: the signed, 24-hour, claim-bearing token of
the second login path (`jwt.sign` in `src/api/auth/login.js:57-65`, an
external library), carrying the row id, email and external id. -/
def jwtSign (userId : Nat) (email : String) (user_id : String) : String :=
  "jwt." ++ toString userId ++ "." ++ email ++ "." ++ user_id ++ ".24h"

/-- The demo token of `src/server.js:110`:
`jwt_${Date.now()}_${user.id}`. -/
def demoToken (now : Nat) (id : Nat) : String :=
  "jwt_" ++ toString now ++ "_" ++ toString id

/-- `SELECT ... FROM users WHERE email = $1 OR user_id = $1`, taking
`rows[0]` (`src/server.js:65-72`, `src/api/auth/login.js:32-35`). -/
def findByKey (db : List UserRow) (key : String) : Option UserRow :=
  db.find? (fun u => u.email == key || u.user_id == key)

/-- The match predicate of `WHERE id = $1 OR user_id = $1` against a
possibly-missing request value (`src/server.js:200,262,348`); a missing
value matches no row. -/
def matchesIdOpt (u : UserRow) (key : Option String) : Bool :=
  match key with
  | none => false
  | some k => toString u.id == k || u.user_id == k

/-- An HTTP response: status code plus JSON body. -/
structure Response where
  status : Nat
  body : Json
deriving Repr

/-- The uniform error body `{success: false, message}`. -/
def errBody (msg : String) : Json :=
  Json.obj [("success", Json.bool false), ("message", Json.str msg)]

/-- Serialize an optional (nullable) column. -/
def jsonOfOpt : Option String → Json
  | none => Json.null
  | some s => Json.str s

/-- The user object of the `server.js` login success response: every
selected column except the destructured-away `password_hash`
(`src/server.js:66-70,105`). -/
def safeUserJson (u : UserRow) : Json :=
  Json.obj [("id", Json.num u.id), ("user_id", Json.str u.user_id),
    ("email", Json.str u.email), ("name", Json.str u.name),
    ("profile_picture", jsonOfOpt u.profile_picture),
    ("wallet_address", jsonOfOpt u.wallet_address),
    ("nft_tier", jsonOfOpt u.nft_tier),
    ("created_at", Json.num u.created_at),
    ("updated_at", Json.num u.updated_at)]

/-- Request body of both login endpoints. -/
structure LoginBody where
  email : Option String
  password : Option String
deriving Repr

/-- `POST /api/auth/login` of `src/server.js:51-126`. -/
def loginServer (db : List UserRow) (body : LoginBody) (now : Nat) : Response :=
  if !(optTruthy body.email) || !(optTruthy body.password) then
    ⟨400, errBody "Email and password are required"⟩
  else
    match findByKey db (body.email.getD "") with
    | none => ⟨401, errBody "Invalid email or password"⟩
    | some user =>
      if !(optTruthy user.password_hash) then
        ⟨401, errBody "Account not properly set up"⟩
      else if !(bcryptVerify (body.password.getD "") user.password_hash) then
        ⟨401, errBody "Invalid email or password"⟩
      else
        ⟨200, Json.obj [("success", Json.bool true),
          ("token", Json.str (demoToken now user.id)),
          ("user", safeUserJson user),
          ("message", Json.str "Login successful")]⟩

/-- The user object of the `login.js` success response: the selected
columns `id, user_id, email, name, password_hash` minus the
destructured-away `password_hash` (`src/api/auth/login.js:33,68`). -/
def jsUserJson (u : UserRow) : Json :=
  Json.obj [("id", Json.num u.id), ("user_id", Json.str u.user_id),
    ("email", Json.str u.email), ("name", Json.str u.name)]

/-- `POST /login` of `src/api/auth/login.js:20-83`.  Note: unlike
`loginServer` it has no absent-hash guard; `bcrypt.compare` is called
directly on the stored (possibly absent) hash. -/
def loginJs (db : List UserRow) (body : LoginBody) : Response :=
  if !(optTruthy body.email) || !(optTruthy body.password) then
    ⟨400, errBody "Email and password are required"⟩
  else
    match findByKey db (body.email.getD "") with
    | none => ⟨401, errBody "Invalid email or password"⟩
    | some user =>
      if !(bcryptVerify (body.password.getD "") user.password_hash) then
        ⟨401, errBody "Invalid email or password"⟩
      else
        ⟨200, Json.obj [("success", Json.bool true),
          ("token", Json.str (jwtSign user.id user.email user.user_id)),
          ("user", jsUserJson user)]⟩

/-- Request body of `POST /api/auth/register`. -/
structure RegisterBody where
  email : Option String
  password : Option String
  name : Option String
  user_id : Option String
deriving Repr

/-- The existence check of `src/server.js:141-144`:
`SELECT id FROM users WHERE email = $1 OR user_id = $2` with
`$1 = email`, `$2 = user_id || email`. -/
def registerExistsCheck (db : List UserRow) (email uidKey : String) : Bool :=
  db.any (fun u => u.email == email || u.user_id == uidKey)

/-- The store-assigned surrogate id for an insert. -/
def freshId (db : List UserRow) : Nat :=
  db.foldl (fun m u => max m u.id) 0 + 1

/-- `POST /api/auth/register` of `src/server.js:129-181`. Returns the
response and the table after the call. -/
def register (db : List UserRow) (body : RegisterBody) (now : Nat) :
    Response × List UserRow :=
  if !(optTruthy body.email) || !(optTruthy body.password) || !(optTruthy body.name) then
    (⟨400, errBody "Email, password, and name are required"⟩, db)
  else
    let email := body.email.getD ""
    let uidKey := if optTruthy body.user_id then body.user_id.getD "" else email
    if registerExistsCheck db email uidKey then
      (⟨409, errBody "User already exists"⟩, db)
    else
      let newRow : UserRow :=
        { id := freshId db
          user_id := if optTruthy body.user_id then body.user_id.getD ""
                     else "user_" ++ toString now
          email := email
          name := body.name.getD ""
          password_hash := some (bcryptHash (body.password.getD ""))
          profile_picture := none
          wallet_address := none
          nft_tier := none
          created_at := now
          updated_at := now }
      (⟨200, Json.obj [("success", Json.bool true),
          ("message", Json.str "Registration successful"),
          ("user", Json.obj [("id", Json.num newRow.id),
            ("user_id", Json.str newRow.user_id),
            ("email", Json.str newRow.email),
            ("name", Json.str newRow.name),
            ("created_at", Json.num newRow.created_at)])]⟩,
       db ++ [newRow])

/-- Request body of `POST /api/auth/update-profile`. -/
structure UpdatePostBody where
  userId : Option String
  name : Option String
  profile_picture : Option String
deriving Repr

/-- `COALESCE($i, col)` for a non-nullable column: a SQL-`NULL`
parameter (missing JS value) keeps the old value. -/
def coalesce (new : Option String) (old : String) : String :=
  new.getD old

/-- `COALESCE($i, col)` for a nullable column. -/
def coalesceOpt (new old : Option String) : Option String :=
  match new with
  | some s => some s
  | none => old

/-- The per-row effect of the `UPDATE` of `src/server.js:195-203`. -/
def applyPostUpdate (u : UserRow) (name pp : Option String) (now : Nat) : UserRow :=
  { u with name := coalesce name u.name,
           profile_picture := coalesceOpt pp u.profile_picture,
           updated_at := now }

/-- The columns of `RETURNING id, user_id, email, name, profile_picture,
updated_at` (`src/server.js:201,349`). -/
def returnedRowJson (u : UserRow) : Json :=
  Json.obj [("id", Json.num u.id), ("user_id", Json.str u.user_id),
    ("email", Json.str u.email), ("name", Json.str u.name),
    ("profile_picture", jsonOfOpt u.profile_picture),
    ("updated_at", Json.num u.updated_at)]

/-- `POST /api/auth/update-profile` of `src/server.js:184-225`. Returns
the response and the table after the call. -/
def updateProfilePost (db : List UserRow) (body : UpdatePostBody) (now : Nat) :
    Response × List UserRow :=
  if !(optTruthy body.userId) then
    (⟨400, errBody "User ID is required"⟩, db)
  else
    let newDb := db.map (fun u =>
      if matchesIdOpt u body.userId then
        applyPostUpdate u body.name body.profile_picture now
      else u)
    let returned := (db.filter (fun u => matchesIdOpt u body.userId)).map
      (fun u => applyPostUpdate u body.name body.profile_picture now)
    match returned with
    | [] => (⟨404, errBody "User not found"⟩, db)
    | r :: _ =>
      (⟨200, Json.obj [("success", Json.bool true),
          ("message", Json.str "Profile updated"),
          ("user", returnedRowJson r)]⟩, newDb)

/-- The headers of the PUT endpoint. -/
structure PutHeaders where
  authorization : Option String
deriving Repr

/-- Request body of `PUT /api/auth/update-profile`. -/
structure UpdatePutBody where
  name : Option String
  userId : Option String
deriving Repr

/-- JavaScript `String.prototype.split` with a one-character separator,
over the character list: splitting `""` gives `[""]`, a trailing
separator yields a trailing empty part. -/
def splitChar (c : Char) : List Char → List (List Char)
  | [] => [[]]
  | x :: xs =>
    let r := splitChar c xs
    if x == c then [] :: r
    else
      match r with
      | [] => [[x]]
      | y :: ys => (x :: y) :: ys

/-- JavaScript `"s".split(" ")` as a list of strings. -/
def jsSplitSpace (s : String) : List String :=
  (splitChar ' ' s.data).map (fun l => String.mk l)

/-- Drop leading whitespace characters. -/
def dropLeadingWs : List Char → List Char
  | [] => []
  | x :: xs => if x.isWhitespace then dropLeadingWs xs else x :: xs

/-- JavaScript `String.prototype.trim`: strip whitespace from both
ends. -/
def jsTrim (s : String) : String :=
  String.mk (dropLeadingWs (dropLeadingWs s.data.reverse).reverse)

/-- `authHeader && authHeader.split(' ')[1]` of `src/server.js:314-315`:
the would-be bearer token, missing when the header is absent or has no
second space-separated part. -/
def extractToken (authorization : Option String) : Option String :=
  match authorization with
  | none => none
  | some h => (jsSplitSpace h).get? 1

/-- The per-row effect of the `UPDATE` of `src/server.js:345-351`:
`SET name = $1, updated_at = NOW()` with `$1 = name.trim()`. -/
def applyPutUpdate (u : UserRow) (trimmedName : String) (now : Nat) : UserRow :=
  { u with name := trimmedName, updated_at := now }

/-- `PUT /api/auth/update-profile` of `src/server.js:311-373`. Returns
the response and the table after the call. -/
def updateProfilePut (db : List UserRow) (headers : PutHeaders)
    (body : UpdatePutBody) (now : Nat) : Response × List UserRow :=
  if !(optTruthy (extractToken headers.authorization)) then
    (⟨401, errBody "Authentication token required"⟩, db)
  else
    let name := body.name.getD ""
    if !(optTruthy body.name) || (jsTrim name).length == 0 then
      (⟨400, errBody "Name is required"⟩, db)
    else if name.length > 100 then
      (⟨400, errBody "Name must be 100 characters or less"⟩, db)
    else
      let newDb := db.map (fun u =>
        if matchesIdOpt u body.userId then applyPutUpdate u (jsTrim name) now else u)
      let returned := (db.filter (fun u => matchesIdOpt u body.userId)).map
        (fun u => applyPutUpdate u (jsTrim name) now)
      match returned with
      | [] => (⟨404, errBody "User not found"⟩, db)
      | r :: _ =>
        (⟨200, Json.obj [("success", Json.bool true),
            ("message", Json.str "Profile updated successfully"),
            ("user", returnedRowJson r)]⟩, newDb)

/-- The user object of `GET /api/users/:userId`: the selected columns of
`src/server.js:259-260` (no `password_hash`). -/
def getUserJson (u : UserRow) : Json :=
  Json.obj [("id", Json.num u.id), ("user_id", Json.str u.user_id),
    ("email", Json.str u.email), ("name", Json.str u.name),
    ("profile_picture", jsonOfOpt u.profile_picture),
    ("wallet_address", jsonOfOpt u.wallet_address),
    ("nft_tier", jsonOfOpt u.nft_tier),
    ("created_at", Json.num u.created_at)]

/-- `GET /api/users/:userId` of `src/server.js:254-285` (the path
parameter is always a present string). -/
def getUser (db : List UserRow) (userId : String) : Response :=
  match db.find? (fun u => matchesIdOpt u (some userId)) with
  | none => ⟨404, errBody "User not found"⟩
  | some u => ⟨200, Json.obj [("success", Json.bool true), ("user", getUserJson u)]⟩

end ThreeK

namespace ThreeK

/-- The row that a successful `register` call inserts (the `INSERT` of
`src/server.js:158-163` with its `NOW()` and fabricated-id defaults). -/
def registeredRow (db : List UserRow) (e p n : String) (uid : Option String)
    (now : Nat) : UserRow :=
  { id := freshId db
    user_id := if optTruthy uid then uid.getD "" else "user_" ++ toString now
    email := e
    name := n
    password_hash := some (bcryptHash p)
    profile_picture := none
    wallet_address := none
    nft_tier := none
    created_at := now
    updated_at := now }

/-! ### Concrete table rows used to instantiate the theorems -/

/-- A login-capable account. -/
def annRow : UserRow :=
  { id := 1, user_id := "u1", email := "ann@x.com", name := "Ann",
    password_hash := some (bcryptHash "secret123"), profile_picture := none,
    wallet_address := none, nft_tier := none, created_at := 0, updated_at := 0 }

/-- An account whose external `user_id` equals another person's email. -/
def aliasRow : UserRow :=
  { id := 2, user_id := "ann@x.com", email := "bob@y.com", name := "Bob",
    password_hash := some (bcryptHash "bobpw"), profile_picture := none,
    wallet_address := none, nft_tier := none, created_at := 0, updated_at := 0 }

/-- A stored row whose `password_hash` is absent. -/
def noHashRow : UserRow :=
  { id := 7, user_id := "u7", email := "carol@x.com", name := "Carol",
    password_hash := none, profile_picture := none,
    wallet_address := none, nft_tier := none, created_at := 0, updated_at := 0 }

/-- A 101-character name. -/
def longName101 : String := String.mk (List.replicate 101 'a')

/-- A 101-character name whose trimmed form is a single character. -/
def paddedName101 : String := String.mk ('a' :: List.replicate 100 ' ')

/-! ### Helper lemmas about truthiness and the hashing service -/

theorem optTruthy_some_of_ne {s : String} (h : s ≠ "") : optTruthy (some s) = true := by
  simp [optTruthy, strTruthy, h]

theorem strTruthy_false_iff {s : String} : strTruthy s = false ↔ s = "" := by
  simp [strTruthy]

theorem bcryptHash_ne_empty (p : String) : bcryptHash p ≠ "" := by
  intro h
  have h2 : ("$2b$10$" ++ p).data = ("" : String).data := by rw [← bcryptHash, h]
  rw [String.data_append] at h2
  have h3 := List.append_eq_nil.mp h2
  exact absurd h3.1 (by decide)

theorem optTruthy_bcryptHash (p : String) : optTruthy (some (bcryptHash p)) = true :=
  optTruthy_some_of_ne (bcryptHash_ne_empty p)

theorem bcryptVerify_self (p : String) : bcryptVerify p (some (bcryptHash p)) = true := by
  simp [bcryptVerify]

theorem bcryptVerify_not_truthy {p : String} {stored : Option String}
    (h : optTruthy stored = false) : bcryptVerify p stored = false := by
  cases stored with
  | none => rfl
  | some s =>
    have hs : s = "" := strTruthy_false_iff.mp (by simpa [optTruthy] using h)
    subst hs
    simp [bcryptVerify, Ne.symm (bcryptHash_ne_empty p)]

/-! ### Helper lemmas about JSON key search -/

theorem hasKeyDeep_null (k : String) : Json.hasKeyDeep k Json.null = false := rfl

theorem hasKeyDeep_bool (k : String) (b : Bool) :
    Json.hasKeyDeep k (Json.bool b) = false := rfl

theorem hasKeyDeep_num (k : String) (n : Int) :
    Json.hasKeyDeep k (Json.num n) = false := rfl

theorem hasKeyDeep_str (k : String) (s : String) :
    Json.hasKeyDeep k (Json.str s) = false := rfl

theorem hasKeyDeep_obj (k : String) (fs : List (String × Json)) :
    Json.hasKeyDeep k (Json.obj fs) = Json.hasKeyDeepFields k fs := rfl

theorem hasKeyDeepFields_nil (k : String) : Json.hasKeyDeepFields k [] = false := rfl

theorem hasKeyDeepFields_cons (k k2 : String) (v : Json) (rest : List (String × Json)) :
    Json.hasKeyDeepFields k ((k2, v) :: rest) =
      (k2 == k || Json.hasKeyDeep k v || Json.hasKeyDeepFields k rest) := rfl

theorem jsonOfOpt_hasKeyDeep (k : String) (o : Option String) :
    Json.hasKeyDeep k (jsonOfOpt o) = false := by
  cases o <;> rfl

theorem errBody_no_hash (msg : String) :
    Json.hasKeyDeep "password_hash" (errBody msg) = false := by
  simp [errBody, hasKeyDeep_obj, hasKeyDeepFields_cons, hasKeyDeepFields_nil,
    hasKeyDeep_bool, hasKeyDeep_str]

theorem safeUserJson_no_hash (u : UserRow) :
    Json.hasKeyDeep "password_hash" (safeUserJson u) = false := by
  simp [safeUserJson, hasKeyDeep_obj, hasKeyDeepFields_cons, hasKeyDeepFields_nil,
    hasKeyDeep_num, hasKeyDeep_str, jsonOfOpt_hasKeyDeep]

theorem jsUserJson_no_hash (u : UserRow) :
    Json.hasKeyDeep "password_hash" (jsUserJson u) = false := by
  simp [jsUserJson, hasKeyDeep_obj, hasKeyDeepFields_cons, hasKeyDeepFields_nil,
    hasKeyDeep_num, hasKeyDeep_str]

theorem returnedRowJson_no_hash (u : UserRow) :
    Json.hasKeyDeep "password_hash" (returnedRowJson u) = false := by
  simp [returnedRowJson, hasKeyDeep_obj, hasKeyDeepFields_cons, hasKeyDeepFields_nil,
    hasKeyDeep_num, hasKeyDeep_str, jsonOfOpt_hasKeyDeep]

theorem getUserJson_no_hash (u : UserRow) :
    Json.hasKeyDeep "password_hash" (getUserJson u) = false := by
  simp [getUserJson, hasKeyDeep_obj, hasKeyDeepFields_cons, hasKeyDeepFields_nil,
    hasKeyDeep_num, hasKeyDeep_str, jsonOfOpt_hasKeyDeep]

end ThreeK

namespace ThreeK

/-- C1: for every table and every request, the JSON body returned by the
login (both paths), register, get-user-by-id and update-profile (both
verbs) handlers — success or failure — contains no `password_hash` key. -/
theorem c1_no_password_hash_in_any_response :
    (∀ db body now, Json.hasKeyDeep "password_hash" (loginServer db body now).body = false)
    ∧ (∀ db body, Json.hasKeyDeep "password_hash" (loginJs db body).body = false)
    ∧ (∀ db body now, Json.hasKeyDeep "password_hash" (register db body now).1.body = false)
    ∧ (∀ db userId, Json.hasKeyDeep "password_hash" (getUser db userId).body = false)
    ∧ (∀ db body now, Json.hasKeyDeep "password_hash" (updateProfilePost db body now).1.body = false)
    ∧ (∀ db headers body now,
        Json.hasKeyDeep "password_hash" (updateProfilePut db headers body now).1.body = false) := by
  refine ⟨?_, ?_, ?_, ?_, ?_, ?_⟩
  · intro db body now
    unfold loginServer
    split
    · exact errBody_no_hash _
    · split
      · exact errBody_no_hash _
      · split
        · exact errBody_no_hash _
        · split
          · exact errBody_no_hash _
          · simp [hasKeyDeep_obj, hasKeyDeepFields_cons, hasKeyDeepFields_nil,
              hasKeyDeep_bool, hasKeyDeep_str, safeUserJson_no_hash]
  · intro db body
    unfold loginJs
    split
    · exact errBody_no_hash _
    · split
      · exact errBody_no_hash _
      · split
        · exact errBody_no_hash _
        · simp [hasKeyDeep_obj, hasKeyDeepFields_cons, hasKeyDeepFields_nil,
            hasKeyDeep_bool, hasKeyDeep_str, jsUserJson_no_hash]
  · intro db body now
    unfold register
    dsimp only
    split
    · exact errBody_no_hash _
    · split <;> split <;> rfl
  · intro db userId
    unfold getUser
    split
    · exact errBody_no_hash _
    · simp [hasKeyDeep_obj, hasKeyDeepFields_cons, hasKeyDeepFields_nil,
        hasKeyDeep_bool, getUserJson_no_hash]
  · intro db body now
    unfold updateProfilePost
    dsimp only
    split
    · exact errBody_no_hash _
    · split
      · exact errBody_no_hash _
      · simp [hasKeyDeep_obj, hasKeyDeepFields_cons, hasKeyDeepFields_nil,
          hasKeyDeep_bool, hasKeyDeep_str, returnedRowJson_no_hash]
  · intro db headers body now
    unfold updateProfilePut
    dsimp only
    split
    · exact errBody_no_hash _
    · split
      · exact errBody_no_hash _
      · split
        · exact errBody_no_hash _
        · split
          · exact errBody_no_hash _
          · simp [hasKeyDeep_obj, hasKeyDeepFields_cons, hasKeyDeepFields_nil,
              hasKeyDeep_bool, hasKeyDeep_str, returnedRowJson_no_hash]

end ThreeK

namespace ThreeK

/-- C3 counterexample: with a stored row whose `password_hash` is absent,
the `login.js` path does not answer 'Account not properly set up' before
verification — it attempts verification and answers
'Invalid email or password', so the claimed behaviour does not hold on
both login paths. -/
theorem c3_counterexample :
    loginJs [noHashRow] ⟨some "carol@x.com", some "pw"⟩ =
      ⟨401, errBody "Invalid email or password"⟩
    ∧ "Invalid email or password" ≠ "Account not properly set up" :=
  ⟨rfl, by decide⟩

/-- C3 (amended): for a login matching a stored row with an absent
(null/empty) `password_hash`, verification returns false rather than
throwing, and access is denied with 401 on both paths; but only the
`server.js` handler answers 'Account not properly set up' before
attempting verification — the `login.js` handler attempts verification
and answers 'Invalid email or password'. -/
theorem c3_absent_hash_denied (db : List UserRow) (e p : String) (u : UserRow) (now : Nat)
    (he : e ≠ "") (hp : p ≠ "")
    (hfind : findByKey db e = some u)
    (hnohash : optTruthy u.password_hash = false) :
    bcryptVerify p u.password_hash = false
    ∧ loginServer db ⟨some e, some p⟩ now = ⟨401, errBody "Account not properly set up"⟩
    ∧ loginJs db ⟨some e, some p⟩ = ⟨401, errBody "Invalid email or password"⟩ := by
  refine ⟨bcryptVerify_not_truthy hnohash, ?_, ?_⟩
  · unfold loginServer
    simp [optTruthy_some_of_ne he, optTruthy_some_of_ne hp, hfind, hnohash]
  · unfold loginJs
    simp [optTruthy_some_of_ne he, optTruthy_some_of_ne hp, hfind,
      bcryptVerify_not_truthy hnohash]

/-- C3 witness: the amended theorem applied to a concrete table. -/
theorem c3_witness :
    ("carol@x.com" : String) ≠ ""
    ∧ ("pw" : String) ≠ ""
    ∧ findByKey [noHashRow] "carol@x.com" = some noHashRow
    ∧ optTruthy noHashRow.password_hash = false
    ∧ (bcryptVerify "pw" noHashRow.password_hash = false
       ∧ loginServer [noHashRow] ⟨some "carol@x.com", some "pw"⟩ 5 =
           ⟨401, errBody "Account not properly set up"⟩
       ∧ loginJs [noHashRow] ⟨some "carol@x.com", some "pw"⟩ =
           ⟨401, errBody "Invalid email or password"⟩) :=
  ⟨by decide, by decide, by decide, by decide,
   c3_absent_hash_denied [noHashRow] "carol@x.com" "pw" noHashRow 5
     (by decide) (by decide) (by decide) (by decide)⟩

/-- C4: a login with a wrong password against an existing account that
has a stored hash answers 401 with `success:false` and a body with no
`token` key, on both login paths. -/
theorem c4_wrong_password_401 (db : List UserRow) (e p : String) (u : UserRow) (now : Nat)
    (he : e ≠ "") (hp : p ≠ "")
    (hfind : findByKey db e = some u)
    (hhash : optTruthy u.password_hash = true)
    (hwrong : bcryptVerify p u.password_hash = false) :
    loginServer db ⟨some e, some p⟩ now = ⟨401, errBody "Invalid email or password"⟩
    ∧ loginJs db ⟨some e, some p⟩ = ⟨401, errBody "Invalid email or password"⟩
    ∧ Json.hasKeyDeep "token" (errBody "Invalid email or password") = false
    ∧ Json.getKey "success" (errBody "Invalid email or password") = some (Json.bool false) := by
  refine ⟨?_, ?_, by decide, rfl⟩
  · unfold loginServer
    simp [optTruthy_some_of_ne he, optTruthy_some_of_ne hp, hfind, hhash, hwrong]
  · unfold loginJs
    simp [optTruthy_some_of_ne he, optTruthy_some_of_ne hp, hfind, hwrong]

/-- C4 witness: the theorem applied to a concrete table and password. -/
theorem c4_witness :
    ("ann@x.com" : String) ≠ ""
    ∧ ("wrongpw" : String) ≠ ""
    ∧ findByKey [annRow] "ann@x.com" = some annRow
    ∧ optTruthy annRow.password_hash = true
    ∧ bcryptVerify "wrongpw" annRow.password_hash = false
    ∧ (loginServer [annRow] ⟨some "ann@x.com", some "wrongpw"⟩ 5 =
         ⟨401, errBody "Invalid email or password"⟩
       ∧ loginJs [annRow] ⟨some "ann@x.com", some "wrongpw"⟩ =
         ⟨401, errBody "Invalid email or password"⟩
       ∧ Json.hasKeyDeep "token" (errBody "Invalid email or password") = false
       ∧ Json.getKey "success" (errBody "Invalid email or password") = some (Json.bool false)) :=
  ⟨by decide, by decide, by decide, by decide, by decide,
   c4_wrong_password_401 [annRow] "ann@x.com" "wrongpw" annRow 5
     (by decide) (by decide) (by decide) (by decide) (by decide)⟩

end ThreeK

namespace ThreeK

/-- C7 counterexample: a PUT update-profile request with no
Authorization header is answered with status 401, not 400 as claimed. -/
theorem c7_counterexample :
    (updateProfilePut [annRow] ⟨none⟩ ⟨some "Bob", some "1"⟩ 9).1.status = 401
    ∧ (401 : Nat) ≠ 400 := by
  exact ⟨by decide, by decide⟩

/-- C7 (amended): for every PUT update-profile request with no bearer
token extractable from the Authorization header, the response is 401
with `success:false` ('Authentication token required') and the table is
unchanged. -/
theorem c7_put_no_token_401 (db : List UserRow) (headers : PutHeaders)
    (body : UpdatePutBody) (now : Nat)
    (htok : optTruthy (extractToken headers.authorization) = false) :
    updateProfilePut db headers body now =
      (⟨401, errBody "Authentication token required"⟩, db) := by
  unfold updateProfilePut
  simp [htok]

/-- C7 witness: the amended theorem applied to a concrete request. -/
theorem c7_witness :
    optTruthy (extractToken (PutHeaders.mk none).authorization) = false
    ∧ updateProfilePut [annRow] ⟨none⟩ ⟨some "Bob", some "1"⟩ 9 =
        (⟨401, errBody "Authentication token required"⟩, [annRow]) :=
  ⟨by decide, c7_put_no_token_401 [annRow] ⟨none⟩ ⟨some "Bob", some "1"⟩ 9 (by decide)⟩

/-- C6 counterexample: a PUT request whose name has 101 characters but
which carries no Authorization header is answered 401, not 400 — the
claim as stated quantifies over every such request. -/
theorem c6_counterexample :
    longName101.length > 100
    ∧ (updateProfilePut [annRow] ⟨none⟩ ⟨some longName101, some "1"⟩ 9).1.status = 401
    ∧ (401 : Nat) ≠ 400 := by
  exact ⟨by decide, by decide, by decide⟩

/-- C6 (amended): for every PUT update-profile request that carries a
bearer token and whose name is longer than 100 characters, the response
status is 400 and the table is entirely unchanged — the update query is
never reached. -/
theorem c6_put_long_name_400 (db : List UserRow) (headers : PutHeaders)
    (body : UpdatePutBody) (now : Nat) (nm : String)
    (htok : optTruthy (extractToken headers.authorization) = true)
    (hnm : body.name = some nm)
    (hlong : nm.length > 100) :
    (updateProfilePut db headers body now).1.status = 400
    ∧ (updateProfilePut db headers body now).2 = db := by
  unfold updateProfilePut
  simp only [htok, hnm, Bool.not_true, Bool.false_eq_true, if_false, Option.getD_some]
  rw [if_pos hlong]
  split
  · exact ⟨rfl, rfl⟩
  · exact ⟨rfl, rfl⟩

/-- C6 witness: the amended theorem applied to a concrete request with a
101-character name. -/
theorem c6_witness :
    optTruthy (extractToken (PutHeaders.mk (some "Bearer tok")).authorization) = true
    ∧ (UpdatePutBody.mk (some longName101) (some "1")).name = some longName101
    ∧ longName101.length > 100
    ∧ ((updateProfilePut [annRow] ⟨some "Bearer tok"⟩ ⟨some longName101, some "1"⟩ 9).1.status = 400
       ∧ (updateProfilePut [annRow] ⟨some "Bearer tok"⟩ ⟨some longName101, some "1"⟩ 9).2 = [annRow]) :=
  ⟨by decide, rfl, by decide,
   c6_put_long_name_400 [annRow] ⟨some "Bearer tok"⟩ ⟨some longName101, some "1"⟩ 9 longName101
     (by decide) rfl (by decide)⟩

end ThreeK

namespace ThreeK

/-! ### Helper lemmas about the update queries -/

theorem matchesIdOpt_applyPut (u : UserRow) (s : String) (now : Nat) (key : Option String) :
    matchesIdOpt (applyPutUpdate u s now) key = matchesIdOpt u key := by
  cases key <;> rfl

theorem matchesIdOpt_applyPost (u : UserRow) (nm pp : Option String) (now : Nat)
    (key : Option String) :
    matchesIdOpt (applyPostUpdate u nm pp now) key = matchesIdOpt u key := by
  cases key <;> rfl

theorem find?_map_guarded {α : Type} (p : α → Bool) (g : α → α)
    (hg : ∀ u, p (g u) = p u) (l : List α) :
    (l.map (fun u => if p u then g u else u)).find? p =
      (l.find? p).map (fun u => if p u then g u else u) := by
  rw [List.find?_map]
  have hpe : (p ∘ fun u => if p u then g u else u) = p := by
    funext u
    by_cases h : p u <;> simp [Function.comp, h, hg]
  rw [hpe]

theorem updateProfilePost_notFound (db : List UserRow) (body : UpdatePostBody) (now : Nat)
    (hid : optTruthy body.userId = true)
    (hfind : db.find? (fun u => matchesIdOpt u body.userId) = none) :
    updateProfilePost db body now = (⟨404, errBody "User not found"⟩, db) := by
  have hflt : db.filter (fun u => matchesIdOpt u body.userId) = [] := by
    have h := List.filter_head? (fun u => matchesIdOpt u body.userId) db
    rw [hfind] at h
    cases hc : db.filter (fun u => matchesIdOpt u body.userId) with
    | nil => rfl
    | cons a tl => rw [hc] at h; simp at h
  unfold updateProfilePost
  rw [hid]
  simp only [Bool.not_true, Bool.false_eq_true, if_false, hflt, List.map_nil]

theorem updateProfilePost_found (db : List UserRow) (body : UpdatePostBody) (now : Nat)
    (u0 : UserRow) (hid : optTruthy body.userId = true)
    (hfind : db.find? (fun u => matchesIdOpt u body.userId) = some u0) :
    updateProfilePost db body now =
      (⟨200, Json.obj [("success", Json.bool true), ("message", Json.str "Profile updated"),
          ("user", returnedRowJson (applyPostUpdate u0 body.name body.profile_picture now))]⟩,
       db.map (fun u => if matchesIdOpt u body.userId then
          applyPostUpdate u body.name body.profile_picture now else u)) := by
  have h := List.filter_head? (fun u => matchesIdOpt u body.userId) db
  rw [hfind] at h
  obtain ⟨tl, hflt⟩ := List.head?_eq_some_iff.mp h
  unfold updateProfilePost
  rw [hid]
  simp only [Bool.not_true, Bool.false_eq_true, if_false, hflt, List.map_cons]

end ThreeK

namespace ThreeK

theorem jsTrim_empty : jsTrim "" = "" := rfl

theorem ne_empty_of_trim {nm : String} (htrim : (jsTrim nm).length ≠ 0) : nm ≠ "" := by
  intro h
  subst h
  exact htrim (by decide)

theorem updateProfilePut_guards (db : List UserRow) (headers : PutHeaders)
    (body : UpdatePutBody) (now : Nat) (nm : String)
    (htok : optTruthy (extractToken headers.authorization) = true)
    (hnm : body.name = some nm)
    (htrim : (jsTrim nm).length ≠ 0)
    (hlen : ¬ nm.length > 100) :
    updateProfilePut db headers body now =
      (match (db.filter (fun u => matchesIdOpt u body.userId)).map
          (fun u => applyPutUpdate u (jsTrim nm) now) with
       | [] => (⟨404, errBody "User not found"⟩, db)
       | r :: _ =>
         (⟨200, Json.obj [("success", Json.bool true),
             ("message", Json.str "Profile updated successfully"),
             ("user", returnedRowJson r)]⟩,
          db.map (fun u =>
            if matchesIdOpt u body.userId then applyPutUpdate u (jsTrim nm) now else u))) := by
  have hne : nm ≠ "" := ne_empty_of_trim htrim
  unfold updateProfilePut
  rw [htok, hnm]
  simp only [Bool.not_true, Bool.false_eq_true, if_false, Option.getD_some,
    optTruthy_some_of_ne hne, Nat.beq_eq_true_eq, Bool.false_or,
    if_neg hlen]
  rw [if_neg]
  simp [htrim]

theorem updateProfilePut_found (db : List UserRow) (headers : PutHeaders)
    (body : UpdatePutBody) (now : Nat) (nm : String) (u0 : UserRow)
    (htok : optTruthy (extractToken headers.authorization) = true)
    (hnm : body.name = some nm)
    (htrim : (jsTrim nm).length ≠ 0)
    (hlen : ¬ nm.length > 100)
    (hfind : db.find? (fun u => matchesIdOpt u body.userId) = some u0) :
    updateProfilePut db headers body now =
      (⟨200, Json.obj [("success", Json.bool true),
          ("message", Json.str "Profile updated successfully"),
          ("user", returnedRowJson (applyPutUpdate u0 (jsTrim nm) now))]⟩,
       db.map (fun u =>
         if matchesIdOpt u body.userId then applyPutUpdate u (jsTrim nm) now else u)) := by
  have h := List.filter_head? (fun u => matchesIdOpt u body.userId) db
  rw [hfind] at h
  obtain ⟨tl, hflt⟩ := List.head?_eq_some_iff.mp h
  rw [updateProfilePut_guards db headers body now nm htok hnm htrim hlen, hflt,
    List.map_cons]

theorem updateProfilePut_notFound (db : List UserRow) (headers : PutHeaders)
    (body : UpdatePutBody) (now : Nat) (nm : String)
    (htok : optTruthy (extractToken headers.authorization) = true)
    (hnm : body.name = some nm)
    (htrim : (jsTrim nm).length ≠ 0)
    (hlen : ¬ nm.length > 100)
    (hfind : db.find? (fun u => matchesIdOpt u body.userId) = none) :
    updateProfilePut db headers body now = (⟨404, errBody "User not found"⟩, db) := by
  have h := List.filter_head? (fun u => matchesIdOpt u body.userId) db
  rw [hfind] at h
  have hflt : db.filter (fun u => matchesIdOpt u body.userId) = [] := by
    cases hc : db.filter (fun u => matchesIdOpt u body.userId) with
    | nil => rfl
    | cons a tl => rw [hc] at h; simp at h
  rw [updateProfilePut_guards db headers body now nm htok hnm htrim hlen, hflt,
    List.map_nil]

end ThreeK

namespace ThreeK

/-- C9: the PUT update-profile variant stores the whitespace-trimmed
name (the matched row's stored name becomes `name.trim()` and the call
succeeds), a non-empty whitespace-only name is rejected 400 with 'Name
is required', and the 100-character limit is applied to the untrimmed
name (any name longer than 100 characters with non-empty trim is
rejected 400 even if its trimmed form is short). -/
theorem c9_put_trims_name :
    (∀ db headers body now nm u0,
       optTruthy (extractToken headers.authorization) = true →
       body.name = some nm →
       (jsTrim nm).length ≠ 0 →
       ¬ nm.length > 100 →
       db.find? (fun u => matchesIdOpt u body.userId) = some u0 →
       ((updateProfilePut db headers body now).2.find?
           (fun u => matchesIdOpt u body.userId)).map UserRow.name = some (jsTrim nm)
       ∧ (updateProfilePut db headers body now).1.status = 200)
    ∧ (∀ db headers body now nm,
       optTruthy (extractToken headers.authorization) = true →
       body.name = some nm → nm ≠ "" → (jsTrim nm).length = 0 →
       updateProfilePut db headers body now = (⟨400, errBody "Name is required"⟩, db))
    ∧ (∀ db headers body now nm,
       optTruthy (extractToken headers.authorization) = true →
       body.name = some nm → (jsTrim nm).length ≠ 0 → nm.length > 100 →
       updateProfilePut db headers body now =
         (⟨400, errBody "Name must be 100 characters or less"⟩, db)) := by
  refine ⟨?_, ?_, ?_⟩
  · intro db headers body now nm u0 htok hnm htrim hlen hfind
    rw [updateProfilePut_found db headers body now nm u0 htok hnm htrim hlen hfind]
    constructor
    · have hmap := find?_map_guarded (fun u => matchesIdOpt u body.userId)
        (fun u => applyPutUpdate u (jsTrim nm) now)
        (fun u => matchesIdOpt_applyPut u (jsTrim nm) now body.userId) db
      rw [hmap, hfind]
      have hp : matchesIdOpt u0 body.userId = true :=
        List.find?_some (p := fun u => matchesIdOpt u body.userId) hfind
      simp [hp, applyPutUpdate]
    · rfl
  · intro db headers body now nm htok hnm hne htrim
    unfold updateProfilePut
    rw [htok, hnm]
    simp only [Bool.not_true, Bool.false_eq_true, if_false, Option.getD_some,
      optTruthy_some_of_ne hne, Bool.false_or]
    rw [if_pos]
    simp [htrim]
  · intro db headers body now nm htok hnm htrim hlong
    have hne : nm ≠ "" := ne_empty_of_trim htrim
    unfold updateProfilePut
    rw [htok, hnm]
    simp only [Bool.not_true, Bool.false_eq_true, if_false, Option.getD_some,
      optTruthy_some_of_ne hne, Bool.false_or, if_pos hlong]
    rw [if_neg]
    simp [htrim]

/-- C9 witness: the theorem applied to concrete requests — a padded
name is stored trimmed, a whitespace-only name is rejected as missing,
and a 101-character name whose trimmed form has a single character is
rejected by the untrimmed length check. -/
theorem c9_witness :
    (((updateProfilePut [annRow] ⟨some "Bearer tok"⟩ ⟨some "  Bob  ", some "1"⟩ 9).2.find?
        (fun u => matchesIdOpt u (some "1"))).map UserRow.name = some (jsTrim "  Bob  ")
      ∧ (updateProfilePut [annRow] ⟨some "Bearer tok"⟩ ⟨some "  Bob  ", some "1"⟩ 9).1.status = 200)
    ∧ updateProfilePut [annRow] ⟨some "Bearer tok"⟩ ⟨some "   ", some "1"⟩ 9 =
        (⟨400, errBody "Name is required"⟩, [annRow])
    ∧ jsTrim "  Bob  " = "Bob"
    ∧ paddedName101.length > 100
    ∧ (jsTrim paddedName101).length = 1
    ∧ updateProfilePut [annRow] ⟨some "Bearer tok"⟩ ⟨some paddedName101, some "1"⟩ 9 =
        (⟨400, errBody "Name must be 100 characters or less"⟩, [annRow]) :=
  ⟨c9_put_trims_name.1 [annRow] ⟨some "Bearer tok"⟩ ⟨some "  Bob  ", some "1"⟩ 9 "  Bob  " annRow
     (by decide) rfl (by decide) (by decide) (by decide),
   c9_put_trims_name.2.1 [annRow] ⟨some "Bearer tok"⟩ ⟨some "   ", some "1"⟩ 9 "   "
     (by decide) rfl (by decide) (by decide),
   by decide, by decide, by decide,
   c9_put_trims_name.2.2 [annRow] ⟨some "Bearer tok"⟩ ⟨some paddedName101, some "1"⟩ 9 paddedName101
     (by decide) rfl (by decide) (by decide)⟩

end ThreeK

namespace ThreeK

/-- C5: POST update-profile is a partial update. With a truthy userId:
the table keeps its length; the per-row effect on a matched row changes
`name` and `profile_picture` only when supplied (COALESCE), always sets
`updated_at` to the call time, and leaves `id`, `user_id`, `email`,
`password_hash`, `wallet_address`, `nft_tier`, `created_at` unchanged;
rows that do not match are untouched (the map is the identity on them);
when a row matches, the response is 200 and returns the updated row;
when no row matches, the response is 404 and the table is unchanged. -/
theorem c5_post_partial_update (db : List UserRow) (body : UpdatePostBody) (now : Nat)
    (hid : optTruthy body.userId = true) :
    (updateProfilePost db body now).2.length = db.length
    ∧ (∀ u, (applyPostUpdate u body.name body.profile_picture now).name
          = coalesce body.name u.name
        ∧ (applyPostUpdate u body.name body.profile_picture now).profile_picture
            = coalesceOpt body.profile_picture u.profile_picture
        ∧ (applyPostUpdate u body.name body.profile_picture now).updated_at = now
        ∧ (applyPostUpdate u body.name body.profile_picture now).id = u.id
        ∧ (applyPostUpdate u body.name body.profile_picture now).user_id = u.user_id
        ∧ (applyPostUpdate u body.name body.profile_picture now).email = u.email
        ∧ (applyPostUpdate u body.name body.profile_picture now).password_hash
            = u.password_hash
        ∧ (applyPostUpdate u body.name body.profile_picture now).wallet_address
            = u.wallet_address
        ∧ (applyPostUpdate u body.name body.profile_picture now).nft_tier = u.nft_tier
        ∧ (applyPostUpdate u body.name body.profile_picture now).created_at = u.created_at)
    ∧ (∀ u0, db.find? (fun u => matchesIdOpt u body.userId) = some u0 →
        (updateProfilePost db body now).2 =
          db.map (fun u => if matchesIdOpt u body.userId then
            applyPostUpdate u body.name body.profile_picture now else u)
        ∧ (updateProfilePost db body now).1 =
            ⟨200, Json.obj [("success", Json.bool true),
              ("message", Json.str "Profile updated"),
              ("user", returnedRowJson (applyPostUpdate u0 body.name body.profile_picture now))]⟩)
    ∧ (db.find? (fun u => matchesIdOpt u body.userId) = none →
        updateProfilePost db body now = (⟨404, errBody "User not found"⟩, db)) := by
  refine ⟨?_, ?_, ?_, ?_⟩
  · cases hf : db.find? (fun u => matchesIdOpt u body.userId) with
    | none => rw [updateProfilePost_notFound db body now hid hf]
    | some u0 =>
      rw [updateProfilePost_found db body now u0 hid hf]
      exact List.length_map db _
  · intro u
    exact ⟨rfl, rfl, rfl, rfl, rfl, rfl, rfl, rfl, rfl, rfl⟩
  · intro u0 hf
    rw [updateProfilePost_found db body now u0 hid hf]
    exact ⟨rfl, rfl⟩
  · intro hf
    exact updateProfilePost_notFound db body now hid hf

/-- C5 witness: the theorem applied to a concrete table and a request
that supplies `profile_picture` but omits `name`. -/
theorem c5_witness :
    (updateProfilePost [annRow] ⟨some "1", none, some "pic.png"⟩ 9).2 =
      [annRow].map (fun u => if matchesIdOpt u (some "1") then
        applyPostUpdate u none (some "pic.png") 9 else u)
    ∧ (updateProfilePost [annRow] ⟨some "1", none, some "pic.png"⟩ 9).1 =
        ⟨200, Json.obj [("success", Json.bool true),
          ("message", Json.str "Profile updated"),
          ("user", returnedRowJson (applyPostUpdate annRow none (some "pic.png") 9))]⟩ :=
  (c5_post_partial_update [annRow] ⟨some "1", none, some "pic.png"⟩ 9 (by decide)).2.2.1
    annRow (by decide)

end ThreeK

namespace ThreeK

theorem register_success (db : List UserRow) (e p n : String) (uid : Option String)
    (now : Nat) (he : e ≠ "") (hp : p ≠ "") (hn : n ≠ "")
    (hcheck : registerExistsCheck db e (if optTruthy uid then uid.getD "" else e) = false) :
    register db ⟨some e, some p, some n, uid⟩ now =
      (⟨200, Json.obj [("success", Json.bool true),
          ("message", Json.str "Registration successful"),
          ("user", Json.obj [("id", Json.num (freshId db)),
            ("user_id", Json.str (registeredRow db e p n uid now).user_id),
            ("email", Json.str e), ("name", Json.str n),
            ("created_at", Json.num now)])]⟩,
       db ++ [registeredRow db e p n uid now]) := by
  unfold register
  simp only [optTruthy_some_of_ne he, optTruthy_some_of_ne hp, optTruthy_some_of_ne hn,
    Bool.not_true, Bool.or_self, Bool.false_or, Bool.false_eq_true, if_false,
    Option.getD_some]
  rw [hcheck]
  simp only [Bool.false_eq_true, if_false]
  unfold registeredRow
  by_cases ht : optTruthy uid <;> simp [ht]

end ThreeK

namespace ThreeK

theorem findByKey_append_fresh (db : List UserRow) (e : String) (w : UserRow)
    (hfresh : ∀ u ∈ db, u.email ≠ e ∧ u.user_id ≠ e)
    (hw : w.email = e) :
    findByKey (db ++ [w]) e = some w := by
  unfold findByKey
  rw [List.find?_append]
  have h1 : db.find? (fun u => u.email == e || u.user_id == e) = none := by
    rw [List.find?_eq_none]
    intro u hu
    simp [(hfresh u hu).1, (hfresh u hu).2]
  rw [h1]
  simp [hw]

/-- C2 counterexample: the email `ann@x.com` is previously unused as an
email (the only stored row has a different email), yet registration with
that email, a password and a name fails with 409 — the existence check
also matches the stored row's `user_id` against the new email. -/
theorem c2_counterexample :
    aliasRow.email ≠ "ann@x.com"
    ∧ (register [aliasRow] ⟨some "ann@x.com", some "secret123", some "Ann", none⟩ 5).1.status
        = 409
    ∧ (409 : Nat) ≠ 200 :=
  ⟨by decide, by decide, by decide⟩

/-- C2 (amended): for every registration payload with a password and a
name whose email is previously unused both as an email and as an
external `user_id`, and whose supplied `user_id` (if any) is likewise
unused, registration succeeds (200) and a subsequent login with the same
email and password succeeds (200) with a token in the body. -/
theorem c2_register_then_login (db : List UserRow) (e p n : String) (uid : Option String)
    (now now2 : Nat) (he : e ≠ "") (hp : p ≠ "") (hn : n ≠ "")
    (hfresh : ∀ u ∈ db, u.email ≠ e ∧ u.user_id ≠ e)
    (huid : ∀ u ∈ db, ∀ s, uid = some s → u.user_id ≠ s) :
    (register db ⟨some e, some p, some n, uid⟩ now).1.status = 200
    ∧ (loginServer (register db ⟨some e, some p, some n, uid⟩ now).2
        ⟨some e, some p⟩ now2).status = 200
    ∧ Json.hasKeyDeep "token"
        (loginServer (register db ⟨some e, some p, some n, uid⟩ now).2
          ⟨some e, some p⟩ now2).body = true := by
  have hcheck : registerExistsCheck db e (if optTruthy uid then uid.getD "" else e)
      = false := by
    unfold registerExistsCheck
    rw [List.any_eq_false]
    intro u hu
    simp only [Bool.or_eq_true, beq_iff_eq, not_or]
    refine ⟨(hfresh u hu).1, ?_⟩
    by_cases ht : optTruthy uid
    · cases uid with
      | none => simp [optTruthy] at ht
      | some s =>
        rw [if_pos ht, Option.getD_some]
        exact huid u hu s rfl
    · rw [if_neg ht]
      exact (hfresh u hu).2
  rw [register_success db e p n uid now he hp hn hcheck]
  have hfind : findByKey (db ++ [registeredRow db e p n uid now]) e =
      some (registeredRow db e p n uid now) :=
    findByKey_append_fresh db e (registeredRow db e p n uid now) hfresh rfl
  refine ⟨rfl, ?_, ?_⟩
  · unfold loginServer
    simp only [optTruthy_some_of_ne he, optTruthy_some_of_ne hp, Bool.not_true,
      Bool.or_self, Bool.false_eq_true, if_false, Option.getD_some]
    rw [hfind]
    have hh : (registeredRow db e p n uid now).password_hash = some (bcryptHash p) := rfl
    simp [hh, optTruthy_bcryptHash, bcryptVerify_self]
  · unfold loginServer
    simp only [optTruthy_some_of_ne he, optTruthy_some_of_ne hp, Bool.not_true,
      Bool.or_self, Bool.false_eq_true, if_false, Option.getD_some]
    rw [hfind]
    have hh : (registeredRow db e p n uid now).password_hash = some (bcryptHash p) := rfl
    simp only [hh, optTruthy_bcryptHash, bcryptVerify_self, Bool.not_true,
      Bool.false_eq_true, if_false]
    rfl

/-- C2 witness: register a fresh user on an empty table, then log in
with the same credentials. -/
theorem c2_witness :
    (register [] ⟨some "ann@x.com", some "secret123", some "Ann", none⟩ 5).1.status = 200
    ∧ (loginServer (register [] ⟨some "ann@x.com", some "secret123", some "Ann", none⟩ 5).2
        ⟨some "ann@x.com", some "secret123"⟩ 6).status = 200
    ∧ Json.hasKeyDeep "token"
        (loginServer (register [] ⟨some "ann@x.com", some "secret123", some "Ann", none⟩ 5).2
          ⟨some "ann@x.com", some "secret123"⟩ 6).body = true :=
  c2_register_then_login [] "ann@x.com" "secret123" "Ann" none 5 6
    (by decide) (by decide) (by decide)
    (by intro u hu; exact absurd hu (List.not_mem_nil u))
    (by intro u hu; exact absurd hu (List.not_mem_nil u))

end ThreeK

namespace ThreeK

theorem find?_after_update_post (db : List UserRow) (key : Option String)
    (nm pp : Option String) (now : Nat) (u0 : UserRow)
    (hfind : db.find? (fun u => matchesIdOpt u key) = some u0) :
    (db.map (fun u => if matchesIdOpt u key then applyPostUpdate u nm pp now else u)).find?
        (fun u => matchesIdOpt u key) = some (applyPostUpdate u0 nm pp now) := by
  rw [find?_map_guarded (fun u => matchesIdOpt u key) (fun u => applyPostUpdate u nm pp now)
      (fun u => matchesIdOpt_applyPost u nm pp now key) db, hfind]
  have hp : matchesIdOpt u0 key = true :=
    List.find?_some (p := fun u => matchesIdOpt u key) hfind
  simp [hp]

theorem find?_after_update_put (db : List UserRow) (key : Option String)
    (s : String) (now : Nat) (u0 : UserRow)
    (hfind : db.find? (fun u => matchesIdOpt u key) = some u0) :
    (db.map (fun u => if matchesIdOpt u key then applyPutUpdate u s now else u)).find?
        (fun u => matchesIdOpt u key) = some (applyPutUpdate u0 s now) := by
  rw [find?_map_guarded (fun u => matchesIdOpt u key) (fun u => applyPutUpdate u s now)
      (fun u => matchesIdOpt_applyPut u s now key) db, hfind]
  have hp : matchesIdOpt u0 key = true :=
    List.find?_some (p := fun u => matchesIdOpt u key) hfind
  simp [hp]

end ThreeK

namespace ThreeK

/-- C8: update-profile is idempotent on `name` with a monotone
timestamp, on both the POST and the PUT variant: for a matched row and a
fixed name, after the first call the stored name is the (trimmed, for
PUT) name, after a second call with the same name it is unchanged, and
the stored `updated_at` moves from the first call time to the second —
strictly increasing since the second call happens later. -/
theorem c8_update_twice_same_name (db : List UserRow) :
    (∀ body now1 now2 u0 nm,
       optTruthy (UpdatePostBody.userId body) = true →
       UpdatePostBody.name body = some nm →
       db.find? (fun u => matchesIdOpt u (UpdatePostBody.userId body)) = some u0 →
       now1 < now2 →
       ((updateProfilePost db body now1).2.find?
           (fun u => matchesIdOpt u (UpdatePostBody.userId body))).map UserRow.name = some nm
       ∧ ((updateProfilePost (updateProfilePost db body now1).2 body now2).2.find?
           (fun u => matchesIdOpt u (UpdatePostBody.userId body))).map UserRow.name = some nm
       ∧ ((updateProfilePost db body now1).2.find?
           (fun u => matchesIdOpt u (UpdatePostBody.userId body))).map UserRow.updated_at
             = some now1
       ∧ ((updateProfilePost (updateProfilePost db body now1).2 body now2).2.find?
           (fun u => matchesIdOpt u (UpdatePostBody.userId body))).map UserRow.updated_at
             = some now2
       ∧ now1 < now2)
    ∧ (∀ headers body now1 now2 u0 nm,
       optTruthy (extractToken (PutHeaders.authorization headers)) = true →
       UpdatePutBody.name body = some nm →
       (jsTrim nm).length ≠ 0 →
       ¬ nm.length > 100 →
       db.find? (fun u => matchesIdOpt u (UpdatePutBody.userId body)) = some u0 →
       now1 < now2 →
       ((updateProfilePut db headers body now1).2.find?
           (fun u => matchesIdOpt u (UpdatePutBody.userId body))).map UserRow.name
             = some (jsTrim nm)
       ∧ ((updateProfilePut (updateProfilePut db headers body now1).2 headers body now2).2.find?
           (fun u => matchesIdOpt u (UpdatePutBody.userId body))).map UserRow.name
             = some (jsTrim nm)
       ∧ ((updateProfilePut db headers body now1).2.find?
           (fun u => matchesIdOpt u (UpdatePutBody.userId body))).map UserRow.updated_at
             = some now1
       ∧ ((updateProfilePut (updateProfilePut db headers body now1).2 headers body now2).2.find?
           (fun u => matchesIdOpt u (UpdatePutBody.userId body))).map UserRow.updated_at
             = some now2
       ∧ now1 < now2) := by
  constructor
  · intro body now1 now2 u0 nm hk hnm hfind h12
    have e1 := updateProfilePost_found db body now1 u0 hk hfind
    have f1 : (updateProfilePost db body now1).2.find?
        (fun u => matchesIdOpt u body.userId)
        = some (applyPostUpdate u0 body.name body.profile_picture now1) := by
      rw [e1]
      exact find?_after_update_post db body.userId body.name body.profile_picture now1 u0 hfind
    have e2 := updateProfilePost_found (updateProfilePost db body now1).2 body now2
      (applyPostUpdate u0 body.name body.profile_picture now1) hk f1
    have f2 : (updateProfilePost (updateProfilePost db body now1).2 body now2).2.find?
        (fun u => matchesIdOpt u body.userId)
        = some (applyPostUpdate (applyPostUpdate u0 body.name body.profile_picture now1)
            body.name body.profile_picture now2) := by
      rw [e2]
      exact find?_after_update_post (updateProfilePost db body now1).2 body.userId
        body.name body.profile_picture now2 _ f1
    refine ⟨?_, ?_, ?_, ?_, h12⟩
    · rw [f1]
      simp [hnm, applyPostUpdate, coalesce]
    · rw [f2]
      simp [hnm, applyPostUpdate, coalesce]
    · rw [f1]
      simp [applyPostUpdate]
    · rw [f2]
      simp [applyPostUpdate]
  · intro headers body now1 now2 u0 nm htok hnm htrim hlen hfind h12
    have e1 := updateProfilePut_found db headers body now1 nm u0 htok hnm htrim hlen hfind
    have f1 : (updateProfilePut db headers body now1).2.find?
        (fun u => matchesIdOpt u body.userId) = some (applyPutUpdate u0 (jsTrim nm) now1) := by
      rw [e1]
      exact find?_after_update_put db body.userId (jsTrim nm) now1 u0 hfind
    have e2 := updateProfilePut_found (updateProfilePut db headers body now1).2 headers body
      now2 nm (applyPutUpdate u0 (jsTrim nm) now1) htok hnm htrim hlen f1
    have f2 : (updateProfilePut (updateProfilePut db headers body now1).2 headers body now2).2.find?
        (fun u => matchesIdOpt u body.userId)
        = some (applyPutUpdate (applyPutUpdate u0 (jsTrim nm) now1) (jsTrim nm) now2) := by
      rw [e2]
      exact find?_after_update_put (updateProfilePut db headers body now1).2 body.userId
        (jsTrim nm) now2 _ f1
    refine ⟨?_, ?_, ?_, ?_, h12⟩
    · rw [f1]
      simp [applyPutUpdate]
    · rw [f2]
      simp [applyPutUpdate]
    · rw [f1]
      simp [applyPutUpdate]
    · rw [f2]
      simp [applyPutUpdate]

/-- C8 witness: both variants applied to a concrete table, updating the
same name at times 5 and then 6. -/
theorem c8_witness :
    (((updateProfilePost [annRow] ⟨some "1", some "Bob", none⟩ 5).2.find?
        (fun u => matchesIdOpt u (some "1"))).map UserRow.name = some "Bob"
      ∧ ((updateProfilePost (updateProfilePost [annRow] ⟨some "1", some "Bob", none⟩ 5).2
          ⟨some "1", some "Bob", none⟩ 6).2.find?
        (fun u => matchesIdOpt u (some "1"))).map UserRow.name = some "Bob"
      ∧ ((updateProfilePost [annRow] ⟨some "1", some "Bob", none⟩ 5).2.find?
        (fun u => matchesIdOpt u (some "1"))).map UserRow.updated_at = some 5
      ∧ ((updateProfilePost (updateProfilePost [annRow] ⟨some "1", some "Bob", none⟩ 5).2
          ⟨some "1", some "Bob", none⟩ 6).2.find?
        (fun u => matchesIdOpt u (some "1"))).map UserRow.updated_at = some 6
      ∧ 5 < 6)
    ∧ (((updateProfilePut [annRow] ⟨some "Bearer tok"⟩ ⟨some "Bob", some "1"⟩ 5).2.find?
        (fun u => matchesIdOpt u (some "1"))).map UserRow.name = some (jsTrim "Bob")
      ∧ ((updateProfilePut (updateProfilePut [annRow] ⟨some "Bearer tok"⟩ ⟨some "Bob", some "1"⟩ 5).2
          ⟨some "Bearer tok"⟩ ⟨some "Bob", some "1"⟩ 6).2.find?
        (fun u => matchesIdOpt u (some "1"))).map UserRow.name = some (jsTrim "Bob")
      ∧ ((updateProfilePut [annRow] ⟨some "Bearer tok"⟩ ⟨some "Bob", some "1"⟩ 5).2.find?
        (fun u => matchesIdOpt u (some "1"))).map UserRow.updated_at = some 5
      ∧ ((updateProfilePut (updateProfilePut [annRow] ⟨some "Bearer tok"⟩ ⟨some "Bob", some "1"⟩ 5).2
          ⟨some "Bearer tok"⟩ ⟨some "Bob", some "1"⟩ 6).2.find?
        (fun u => matchesIdOpt u (some "1"))).map UserRow.updated_at = some 6
      ∧ 5 < 6) :=
  ⟨(c8_update_twice_same_name [annRow]).1 ⟨some "1", some "Bob", none⟩ 5 6 annRow "Bob"
     (by decide) rfl (by decide) (by decide),
   (c8_update_twice_same_name [annRow]).2 ⟨some "Bearer tok"⟩ ⟨some "Bob", some "1"⟩ 5 6 annRow
     "Bob" (by decide) rfl (by decide) (by decide) (by decide) (by decide)⟩

end ThreeK

namespace ThreeK

/-- C10: when a registration payload omits `user_id` (and the field
guards pass), the handler's existence check substitutes the email for
the missing identifier — it tests `email = email OR user_id = email` —
and on insert the handler itself fabricates the external identifier as
the string `user_` concatenated with the current timestamp; the
surrogate `id` is store-assigned, but `user_id` is not. -/
theorem c10_register_omitted_user_id (db : List UserRow) (e p n : String) (now : Nat)
    (he : e ≠ "") (hp : p ≠ "") (hn : n ≠ "") :
    registerExistsCheck db e e = db.any (fun u => u.email == e || u.user_id == e)
    ∧ register db ⟨some e, some p, some n, none⟩ now =
        (if registerExistsCheck db e e then (⟨409, errBody "User already exists"⟩, db)
         else
           (⟨200, Json.obj [("success", Json.bool true),
               ("message", Json.str "Registration successful"),
               ("user", Json.obj [("id", Json.num (freshId db)),
                 ("user_id", Json.str ("user_" ++ toString now)),
                 ("email", Json.str e), ("name", Json.str n),
                 ("created_at", Json.num now)])]⟩,
            db ++ [{ id := freshId db, user_id := "user_" ++ toString now, email := e,
                     name := n, password_hash := some (bcryptHash p),
                     profile_picture := none, wallet_address := none, nft_tier := none,
                     created_at := now, updated_at := now }])) := by
  refine ⟨rfl, ?_⟩
  unfold register
  simp only [optTruthy_some_of_ne he, optTruthy_some_of_ne hp, optTruthy_some_of_ne hn,
    Bool.not_true, Bool.or_self, Bool.false_eq_true, if_false, Option.getD_some]
  rfl

/-- C10 witness: the theorem applied to a concrete registration with no
`user_id`, at timestamp 77. -/
theorem c10_witness :
    registerExistsCheck [] "ann@x.com" "ann@x.com" =
      List.any ([] : List UserRow) (fun u => u.email == "ann@x.com" || u.user_id == "ann@x.com")
    ∧ register [] ⟨some "ann@x.com", some "pw", some "Ann", none⟩ 77 =
        (if registerExistsCheck [] "ann@x.com" "ann@x.com" then
           (⟨409, errBody "User already exists"⟩, [])
         else
           (⟨200, Json.obj [("success", Json.bool true),
               ("message", Json.str "Registration successful"),
               ("user", Json.obj [("id", Json.num (freshId [])),
                 ("user_id", Json.str ("user_" ++ toString 77)),
                 ("email", Json.str "ann@x.com"), ("name", Json.str "Ann"),
                 ("created_at", Json.num 77)])]⟩,
            [] ++ [{ id := freshId [], user_id := "user_" ++ toString 77,
                     email := "ann@x.com", name := "Ann",
                     password_hash := some (bcryptHash "pw"),
                     profile_picture := none, wallet_address := none, nft_tier := none,
                     created_at := 77, updated_at := 77 }])) :=
  c10_register_omitted_user_id [] "ann@x.com" "pw" "Ann" 77
    (by decide) (by decide) (by decide)

end ThreeK
